import Mathlib

/-!
Verification development for the `bigdata_search` demo repository.

The repository ships two source files:
* `bigdata_search/prompts.py` — prompt strings for the LLM collaborator,
  including the closed enums (tool_type, date_range, ...) in the RULES block
  and the retry/error-handling policy text;
* `bigdata_search/streaming_example.py` — the streaming consumer
  (`handle_custom_stream`), the `main` driver that builds the configuration,
  streams the workflow and renders the final statistics.

The orchestrator core (`bigdata_search_graph`, planner, executor, retry
policy, aggregator, compiler) is imported by `streaming_example.py` from a
module that is not part of the repository; the parts of it that claims need
are modelled from the specification and are marked
`Modelled from the spec:` in their doc comments.

Python dictionaries are embedded as association lists over a dynamic value
type `PyVal`; a raised Python exception is embedded as `Except.error`
(the partially mutated state at the raise point is discarded, which is
faithful for the properties proved here, all of which only concern whether
an exception escapes and what the final state is when none does).
-/

namespace BigdataSearch

/-- Dynamic Python value, covering the payload types that occur in the
configuration dictionaries and stream chunks of `streaming_example.py`.
Floats are embedded as rationals. -/
inductive PyVal where
  | str (s : String)
  | int (n : Int)
  | float (q : Rat)
  | bool (b : Bool)
  | none
  deriving Repr, DecidableEq

/-- Python truthiness (`bool(v)`) for the embedded values. -/
def PyVal.truthy : PyVal → Bool
  | .str s => !s.isEmpty
  | .int n => n != 0
  | .float q => q != 0
  | .bool b => b
  | .none => false

/-- Plain f-string interpolation of a value into text: defined for every
value (the exact float rendering is abstracted). -/
def PyVal.toDisplay : PyVal → String
  | .str s => s
  | .int n => toString n
  | .float q => toString q
  | .bool b => if b then "True" else "False"
  | .none => "None"

/-- `d.get(k, dflt)` on an embedded dictionary. -/
def dictGet (d : List (String × PyVal)) (k : String) (dflt : PyVal) : PyVal :=
  match d.find? (fun p => p.1 == k) with
  | some p => p.2
  | Option.none => dflt

/-- `d.get(k)` returning `none` when the key is absent. -/
def dictGet? (d : List (String × PyVal)) (k : String) : Option PyVal :=
  (d.find? (fun p => p.1 == k)).map Prod.snd

/-- The keys of an embedded dictionary. -/
def dictKeys (d : List (String × PyVal)) : List String := d.map Prod.fst

/-! ## Embedding of `bigdata_search/prompts.py` -/

/-- The closed tool_type enum declared in the RULES block of
`search_plan_generator_instructions` (prompts.py line 37):
`ENUM for tool_type: news, transcripts, filings, knowledge_graph`. -/
def tool_type_enum : List String :=
  ["news", "transcripts", "filings", "knowledge_graph"]

/-- The tool_type options listed in item 1 of
`search_plan_generator_instructions` (prompts.py line 19), which also offers
"universal" even though the RULES enum on line 37 excludes it. -/
def tool_type_options_line : List String :=
  ["news", "transcripts", "filings", "universal", "knowledge_graph"]

/-- The date_range enum declared in the RULES block of
`search_plan_generator_instructions` (prompts.py line 42). -/
def date_range_enum : List String :=
  ["last_30_days", "last_60_days", "last_90_days"]

/-! ## Embedding of the configuration built in `main`
(streaming_example.py lines 324-344) -/

/-- The `"configurable"` dictionary of the `config` mapping built in `main`
(streaming_example.py lines 324-335). -/
def main_configurable : List (String × PyVal) :=
  [("search_depth", .int 2),
   ("max_results_per_strategy", .int 5),
   ("number_of_queries", .int 2),
   ("bigdata_rate_limit_delay", .float (3 / 2)),
   ("planner_provider", .str "google_genai"),
   ("planner_model", .str "gemini-2.5-flash"),
   ("writer_provider", .str "google_genai"),
   ("writer_model", .str "gemini-2.5-flash")]

/-- The `input_state` dictionary built in `main`
(streaming_example.py lines 338-344). -/
def main_input_state : List (String × PyVal) :=
  [("topic", .str "Give me a detailed deep dive on Micron and how demand for memory is expected to change with the pace of AI"),
   ("search_depth", .int 2),
   ("max_results_per_strategy", .int 5),
   ("entity_preference", .none),
   ("date_range", .str "last_90_days")]

/-! ## Embedding of the final-statistics rendering in `main`
(streaming_example.py lines 410-419) -/

/-- Numeric read of a metadata field, as the statistics table does with
`metadata.get(key, dflt)` followed by numeric use; a missing key or a
non-numeric value falls back to the default (the table only ever receives
numeric values from the workflow). -/
def pyGetNum (d : List (String × PyVal)) (k : String) (dflt : Rat) : Rat :=
  match dictGet? d k with
  | some (.int n) => (n : Rat)
  | some (.float q) => q
  | some (.bool b) => if b then 1 else 0
  | _ => dflt

/-- The success-rate expression rendered in the statistics table
(streaming_example.py line 416):
`successful_searches (default 0) / max(total_searches (default 1), 1) * 100`. -/
def success_rate (metadata : List (String × PyVal)) : Rat :=
  pyGetNum metadata "successful_searches" 0 /
    max (pyGetNum metadata "total_searches" 1) 1 * 100

/-! ## Embedding of `handle_custom_stream`
(streaming_example.py lines 166-293)

The Rich console is embedded as an append-only list of output strings on the
monitor; Rich panels/styling are presentation and are flattened to the text
they would display. Python format specs and string methods applied to a
dynamically typed payload value can raise, which is embedded as
`Except.error`. -/

/-- Python format spec `:.1f` applied to a value: defined for numbers
(`bool` is an `int` subclass in Python), raises `ValueError` for strings and
`TypeError` for `None`. The rendered digits of floats are abstracted. -/
def fmtFixed1 : PyVal → Except String String
  | .int n => .ok (toString n ++ ".0")
  | .float q => .ok (toString q)
  | .bool b => .ok (if b then "1.0" else "0.0")
  | .str _ => .error "ValueError: Unknown format code f for object of type str"
  | .none => .error "TypeError: unsupported format string passed to NoneType"

/-- Python format spec `:,` applied to a value: defined for numbers, raises
for strings and `None`. -/
def fmtComma : PyVal → Except String String
  | .int n => .ok (toString n)
  | .float q => .ok (toString q)
  | .bool b => .ok (if b then "1" else "0")
  | .str _ => .error "ValueError: Cannot specify a comma with s"
  | .none => .error "TypeError: unsupported format string passed to NoneType"

/-- Python `v.upper()`: defined for strings only. -/
def pyUpper : PyVal → Except String String
  | .str s => .ok s.toUpper
  | _ => .error "AttributeError: object has no attribute upper"

/-- Python `v.replace(old, new)`: defined for strings only. -/
def pyReplace (v : PyVal) (old new : String) : Except String String :=
  match v with
  | .str s => .ok (s.replace old new)
  | _ => .error "AttributeError: object has no attribute replace"

/-- Python `needle in v` for a string needle: defined when `v` is a string
(substring test), raises `TypeError` otherwise. -/
def pyContains (needle : String) (v : PyVal) : Except String Bool :=
  match v with
  | .str s => .ok (1 < (s.splitOn needle).length)
  | _ => .error "TypeError: argument of type is not iterable"

/-- A stream chunk: an embedded Python dictionary. -/
abbrev Chunk := List (String × PyVal)

/-- `chunk.get(k, dflt)`. -/
def Chunk.get (c : Chunk) (k : String) (dflt : PyVal) : PyVal :=
  dictGet c k dflt

/-- The observable state of `StreamingProgressMonitor` as touched by
`handle_custom_stream`: the `overall_progress` stage dictionary, the
`search_status` dictionary (insertion ordered), and the console output. -/
structure Monitor where
  overall_progress : List (String × String)
  search_status : List (String × String)
  output : List String
  deriving Repr, DecidableEq

/-- `StreamingProgressMonitor.__init__` state (streaming_example.py
lines 56-64, restricted to the fields `handle_custom_stream` reads/writes). -/
def initMonitor : Monitor :=
  { overall_progress :=
      [("planning", "⏳ Pending"), ("searching", "⏳ Pending"),
       ("gathering", "⏳ Pending"), ("compiling", "⏳ Pending")],
    search_status := [],
    output := [] }

/-- Update the value at a key of an association list, leaving the list
unchanged when the key is absent. -/
def listUpdate (l : List (String × String)) (k v : String) :
    List (String × String) :=
  l.map (fun p => if p.1 == k then (k, v) else p)

/-- Python dictionary assignment `d[k] = v`: update in place when present,
append otherwise. -/
def dictSet (l : List (String × String)) (k v : String) :
    List (String × String) :=
  if l.any (fun p => p.1 == k) then listUpdate l k v else l ++ [(k, v)]

/-- `update_stage` (streaming_example.py lines 137-140): assigns only when
the stage key is already present. -/
def Monitor.update_stage (m : Monitor) (stage status : String) : Monitor :=
  { m with overall_progress := listUpdate m.overall_progress stage status }

/-- `update_search_status` (streaming_example.py lines 142-144): plain
dictionary assignment. -/
def Monitor.update_search_status (m : Monitor) (t status : String) : Monitor :=
  { m with search_status := dictSet m.search_status t status }

/-- A console print, embedded as appending the displayed text. -/
def Monitor.print (m : Monitor) (s : String) : Monitor :=
  { m with output := m.output ++ [s] }

/-- The fixed ProgressEvent type-tag vocabulary (spec section 6). These are
exactly the 22 tags `handle_custom_stream` dispatches on. -/
def eventTagVocabulary : List String :=
  ["planning_start", "planning_config", "planning_model", "planning_thinking",
   "strategy_preview", "query_preview", "planning_ready",
   "search_start", "api_start", "api_success", "result_quality", "api_error",
   "search_complete",
   "gathering_start", "success_analysis", "performance_metrics",
   "gathering_complete",
   "compilation_start", "synthesis_start", "synthesis_complete",
   "report_stats", "workflow_complete"]

/-- `handle_custom_stream` (streaming_example.py lines 166-293), branch by
branch. A raised exception is `Except.error`; a chunk whose type tag matches
no branch falls through to `.ok monitor` (the function body simply ends). -/
def handle_custom_stream (chunk : Chunk) (monitor : Monitor) :
    Except String Monitor :=
  let chunk_type := chunk.get "type" (.str "unknown")
  let message := chunk.get "message" (.str "")
  if chunk_type = .str "planning_start" then
    .ok ((monitor.update_stage "planning" "🧠 Analyzing...").print
      ("\n" ++ message.toDisplay))
  else if chunk_type = .str "planning_config" then
    .ok (monitor.print ("  " ++ message.toDisplay))
  else if chunk_type = .str "planning_model" then
    .ok (monitor.print ("  " ++ message.toDisplay))
  else if chunk_type = .str "planning_thinking" then
    .ok (monitor.print ("  " ++ message.toDisplay))
  else if chunk_type = .str "strategy_preview" then do
    let body ← pyReplace message "📊 Strategy " "Strategy "
    .ok (monitor.print
      ("Strategy " ++ (chunk.get "strategy_index" (.str "?")).toDisplay ++
        "\n" ++ body))
  else if chunk_type = .str "query_preview" then
    .ok (monitor.print ("    " ++ message.toDisplay))
  else if chunk_type = .str "planning_ready" then do
    let s ← pyReplace message "🚀 " ""
    .ok ((monitor.update_stage "planning" "✅ Complete").print ("✅ " ++ s))
  else if chunk_type = .str "search_start" then do
    let tool_type := chunk.get "tool_type" (.str "unknown")
    let up ← pyUpper tool_type
    .ok ((((monitor.update_stage "searching" "🔍 Executing...").update_search_status
      tool_type.toDisplay "⏳ Starting...").print
        ("Starting " ++ up ++ " Search\n" ++ message.toDisplay)))
  else if chunk_type = .str "api_start" then
    let tool_type := chunk.get "tool_type" (.str "unknown")
    .ok ((monitor.update_search_status tool_type.toDisplay "🚀 API Call...").print
      ("  " ++ message.toDisplay))
  else if chunk_type = .str "api_success" then do
    let tool_type := chunk.get "tool_type" (.str "unknown")
    let execution_time := chunk.get "execution_time" (.int 0)
    let t ← fmtFixed1 execution_time
    let s ← pyReplace message "✅ " ""
    .ok ((monitor.update_search_status tool_type.toDisplay
      ("✅ Done (" ++ t ++ "s)")).print ("✅ " ++ s))
  else if chunk_type = .str "result_quality" then do
    let quality := chunk.get "quality" (.str "🟡 Medium")
    let content_length := chunk.get "content_length" (.int 0)
    let len ← fmtComma content_length
    let _hasGreen ← pyContains "🟢" quality
    let _hasYellow ← pyContains "🟡" quality
    let _hasRed ← pyContains "🔴" quality
    .ok (monitor.print
      ("  📊 Result quality: " ++ quality.toDisplay ++ " (" ++ len ++ " chars)"))
  else if chunk_type = .str "api_error" then do
    let tool_type := chunk.get "tool_type" (.str "unknown")
    let s ← pyReplace message "❌ " ""
    .ok ((monitor.update_search_status tool_type.toDisplay "❌ Failed").print
      ("❌ " ++ s))
  else if chunk_type = .str "search_complete" then
    let tool_type := chunk.get "tool_type" (.str "unknown")
    let success := chunk.get "success" (.bool false)
    let status := if success.truthy then "✅ Success" else "❌ Failed"
    .ok (monitor.update_search_status tool_type.toDisplay status)
  else if chunk_type = .str "gathering_start" then
    .ok (((monitor.update_stage "searching" "✅ Complete").update_stage
      "gathering" "📊 Processing...").print ("\n" ++ message.toDisplay))
  else if chunk_type = .str "success_analysis" then
    .ok (monitor.print ("  " ++ message.toDisplay))
  else if chunk_type = .str "performance_metrics" then
    .ok (monitor.print ("  " ++ message.toDisplay))
  else if chunk_type = .str "gathering_complete" then do
    let s ← pyReplace message "✅ " ""
    .ok ((monitor.update_stage "gathering" "✅ Complete").print ("✅ " ++ s))
  else if chunk_type = .str "compilation_start" then
    .ok ((monitor.update_stage "compiling" "📝 Writing...").print
      ("\n" ++ message.toDisplay))
  else if chunk_type = .str "synthesis_start" then
    .ok (monitor.print ("  " ++ message.toDisplay))
  else if chunk_type = .str "synthesis_complete" then do
    let _synthesis_time := chunk.get "synthesis_time" (.int 0)
    let _report_length := chunk.get "report_length" (.int 0)
    let s ← pyReplace message "✅ " ""
    .ok (monitor.print ("✅ " ++ s))
  else if chunk_type = .str "report_stats" then
    .ok (monitor.print ("  " ++ message.toDisplay))
  else if chunk_type = .str "workflow_complete" then do
    let total_time := chunk.get "total_time" (.int 0)
    let t ← fmtFixed1 total_time
    .ok ((monitor.update_stage "compiling" "✅ Complete").print
      (message.toDisplay ++ "\n🕐 Total execution time: " ++ t ++ " seconds"))
  else
    .ok monitor

/-- A dynamic value that is a string. -/
def PyVal.isStr : PyVal → Bool
  | .str _ => true
  | _ => false

/-- A dynamic value that is numeric in Python's sense
(`bool` is an `int` subclass). -/
def PyVal.isNum : PyVal → Bool
  | .int _ => true
  | .float _ => true
  | .bool _ => true
  | _ => false

/-- The chunk's present payload fields have the types the handler's format
specs and string methods require: string-typed message, tool_type and
quality; numeric execution_time, content_length and total_time. Absent
fields are unconstrained, since the handler substitutes well-typed
defaults for them. -/
def Chunk.wellTyped (c : Chunk) : Bool :=
  (c.get "message" (.str "")).isStr &&
  (c.get "tool_type" (.str "unknown")).isStr &&
  (c.get "quality" (.str "🟡 Medium")).isStr &&
  (c.get "execution_time" (.int 0)).isNum &&
  (c.get "content_length" (.int 0)).isNum &&
  (c.get "total_time" (.int 0)).isNum

/-! ## Spec-modelled orchestrator core

The module that defines `bigdata_search_graph` and its components is not
part of the repository (only its prompts and this streaming consumer are),
so the components below are modelled from the specification. -/

/-- Modelled from the spec: the closed tool_type enum of the Strategy data
model (section 3), matching the RULES enum of prompts.py line 37. -/
inductive ToolType where
  | news
  | transcripts
  | filings
  | knowledge_graph
  deriving Repr, DecidableEq

/-- The wire name of a tool type. -/
def ToolType.toString : ToolType → String
  | .news => "news"
  | .transcripts => "transcripts"
  | .filings => "filings"
  | .knowledge_graph => "knowledge_graph"

/-- Parse a collaborator-supplied tool_type string against the closed enum;
any other string (such as "universal") is rejected. -/
def ToolType.ofString (s : String) : Option ToolType :=
  if s = "news" then some .news
  else if s = "transcripts" then some .transcripts
  else if s = "filings" then some .filings
  else if s = "knowledge_graph" then some .knowledge_graph
  else Option.none

/-- Modelled from the spec: the Strategy record (section 3). Invariants:
queries non-empty, priority in [1,5]; tool_type is closed by typing. -/
structure Strategy where
  tool_type : ToolType
  queries : List String
  parameters : List (String × PyVal)
  description : String
  priority : Int
  deriving Repr, DecidableEq

/-- Modelled from the spec: the collaborator's structured output for one
strategy, before validation — required fields may be missing and tool_type
is a free string. -/
structure RawStrategy where
  tool_type : Option String
  queries : Option (List String)
  parameters : List (String × PyVal)
  description : Option String
  priority : Option Int
  deriving Repr, DecidableEq

/-- Modelled from the spec: PlanningError (section 7), raised on malformed
or empty strategy output from the reasoning collaborator. -/
inductive PlanningError where
  | missing_field (name : String)
  | invalid_tool_type (value : String)
  | empty_queries
  | invalid_priority (p : Int)
  deriving Repr, DecidableEq

/-- Modelled from the spec: the StrategyPlanner's validation of one
collaborator-produced strategy (section 4.1): wrong enum value, missing
required field, empty queries list or out-of-range priority fail with a
PlanningError; nothing is coerced to a default. -/
def validateStrategy (raw : RawStrategy) : Except PlanningError Strategy :=
  match raw.tool_type with
  | Option.none => .error (.missing_field "tool_type")
  | some ts =>
    match ToolType.ofString ts with
    | Option.none => .error (.invalid_tool_type ts)
    | some tt =>
      match raw.queries with
      | Option.none => .error (.missing_field "search_queries")
      | some qs =>
        if qs = [] then .error .empty_queries
        else
          match raw.description with
          | Option.none => .error (.missing_field "description")
          | some d =>
            match raw.priority with
            | Option.none => .error (.missing_field "priority")
            | some p =>
              if 1 ≤ p ∧ p ≤ 5 then
                .ok { tool_type := tt, queries := qs,
                      parameters := raw.parameters, description := d,
                      priority := p }
              else .error (.invalid_priority p)

/-- Modelled from the spec: the StrategyPlanner's admission of the whole
collaborator output — every raw strategy must validate, otherwise the first
PlanningError propagates. -/
def StrategyPlanner.plan : List RawStrategy → Except PlanningError (List Strategy)
  | [] => .ok []
  | raw :: rest =>
      match validateStrategy raw with
      | .error e => .error e
      | .ok s =>
          match StrategyPlanner.plan rest with
          | .error e => .error e
          | .ok others => .ok (s :: others)

/-- Modelled from the spec: the ErrorRecord kind enum (section 3). -/
inductive ErrorKind where
  | auth
  | rate_limit
  | timeout
  | empty_result
  | malformed_query
  | unknown
  deriving Repr, DecidableEq

/-- Modelled from the spec: ErrorRecord (section 3); the timestamp is an
abstract rational. -/
structure ErrorRecord where
  kind : ErrorKind
  message : String
  occurred_at : Rat
  deriving Repr, DecidableEq

/-- Modelled from the spec: the typed request mutation a retry decision may
carry (sections 4.3 and 9). -/
inductive RequestMutation where
  | reset_connection
  | reduce_complexity
  | broaden_terms
  | sanitize_query
  deriving Repr, DecidableEq

/-- Modelled from the spec: RetryDecision (section 4.3). -/
structure RetryDecision where
  retry : Bool
  delay_seconds : Rat
  mutated_request : Option RequestMutation
  deriving Repr, DecidableEq

/-- Modelled from the spec: the RetryPolicy decision table (section 4.3),
whose prompt-text counterpart is `error_handling_instructions`
(prompts.py lines 113-121). `attempt_count` is the 1-based index of the
attempt that just failed; `max_attempts` is the configured ceiling. -/
def RetryPolicy.decide (base_delay : Rat) (max_attempts : Nat) :
    ErrorKind → Nat → RetryDecision
  | .auth, attempt_count =>
      ⟨Decidable.decide (attempt_count ≤ 1), 0, some .reset_connection⟩
  | .rate_limit, attempt_count =>
      ⟨Decidable.decide (attempt_count < max_attempts),
        base_delay * 2 ^ (attempt_count - 1), Option.none⟩
  | .timeout, attempt_count =>
      ⟨Decidable.decide (attempt_count ≤ 1), 0, some .reduce_complexity⟩
  | .empty_result, attempt_count =>
      ⟨Decidable.decide (attempt_count ≤ 1), 0, some .broaden_terms⟩
  | .malformed_query, attempt_count =>
      ⟨Decidable.decide (attempt_count ≤ 1), 0, some .sanitize_query⟩
  | .unknown, _ => ⟨false, 0, Option.none⟩

/-- Modelled from the spec: the quality enum (section 3). -/
inductive Quality where
  | low
  | medium
  | high
  deriving Repr, DecidableEq

/-- Modelled from the spec: quality classification from content length
(section 3 default thresholds). -/
def classifyQuality (content_length : Nat) : Quality :=
  if content_length < 500 then .low
  else if content_length ≤ 3000 then .medium
  else .high

/-- Modelled from the spec: SearchOutcome (section 3). -/
structure SearchOutcome where
  tool_type : ToolType
  success : Bool
  content : String
  content_length : Nat
  execution_time_seconds : Rat
  quality : Quality
  error : Option ErrorRecord
  attempt_count : Nat
  deriving Repr, DecidableEq

/-- Modelled from the spec: the outcome of one remote attempt by a tool
adapter (an external collaborator), used as an oracle by the executor. -/
inductive AttemptResult where
  | success (content : String) (execution_time : Rat)
  | failure (err : ErrorRecord) (execution_time : Rat)
  deriving Repr, DecidableEq

/-- Modelled from the spec: the typed ProgressEvent vocabulary (sections 3
and 6): one constructor per tag, each carrying `message` plus its
type-specific fields (tool_type on tool-scoped events, a rational seconds
field on timing events, quality and content_length on result_quality). -/
inductive ProgressEvent where
  | planning_start (message : String)
  | planning_config (message : String)
  | planning_model (message : String)
  | planning_thinking (message : String)
  | strategy_preview (message : String) (strategy_index : Nat)
  | query_preview (message : String)
  | planning_ready (message : String)
  | search_start (message : String) (tool_type : ToolType)
  | api_start (message : String) (tool_type : ToolType)
  | api_success (message : String) (tool_type : ToolType) (execution_time : Rat)
  | result_quality (message : String) (tool_type : ToolType)
      (quality : Quality) (content_length : Nat)
  | api_error (message : String) (tool_type : ToolType)
  | search_complete (message : String) (tool_type : ToolType) (success : Bool)
  | gathering_start (message : String)
  | success_analysis (message : String)
  | performance_metrics (message : String)
  | gathering_complete (message : String)
  | compilation_start (message : String)
  | synthesis_start (message : String)
  | synthesis_complete (message : String) (synthesis_time : Rat)
      (report_length : Nat)
  | report_stats (message : String)
  | workflow_complete (message : String) (total_time : Rat)
  deriving Repr, DecidableEq

/-- The type tag an event carries. -/
def ProgressEvent.tag : ProgressEvent → String
  | .planning_start _ => "planning_start"
  | .planning_config _ => "planning_config"
  | .planning_model _ => "planning_model"
  | .planning_thinking _ => "planning_thinking"
  | .strategy_preview _ _ => "strategy_preview"
  | .query_preview _ => "query_preview"
  | .planning_ready _ => "planning_ready"
  | .search_start _ _ => "search_start"
  | .api_start _ _ => "api_start"
  | .api_success _ _ _ => "api_success"
  | .result_quality _ _ _ _ => "result_quality"
  | .api_error _ _ => "api_error"
  | .search_complete _ _ _ => "search_complete"
  | .gathering_start _ => "gathering_start"
  | .success_analysis _ => "success_analysis"
  | .performance_metrics _ => "performance_metrics"
  | .gathering_complete _ => "gathering_complete"
  | .compilation_start _ => "compilation_start"
  | .synthesis_start _ => "synthesis_start"
  | .synthesis_complete _ _ _ => "synthesis_complete"
  | .report_stats _ => "report_stats"
  | .workflow_complete _ _ => "workflow_complete"

/-- The message every event carries. -/
def ProgressEvent.message : ProgressEvent → String
  | .planning_start m => m
  | .planning_config m => m
  | .planning_model m => m
  | .planning_thinking m => m
  | .strategy_preview m _ => m
  | .query_preview m => m
  | .planning_ready m => m
  | .search_start m _ => m
  | .api_start m _ => m
  | .api_success m _ _ => m
  | .result_quality m _ _ _ => m
  | .api_error m _ => m
  | .search_complete m _ _ => m
  | .gathering_start m => m
  | .success_analysis m => m
  | .performance_metrics m => m
  | .gathering_complete m => m
  | .compilation_start m => m
  | .synthesis_start m => m
  | .synthesis_complete m _ _ => m
  | .report_stats m => m
  | .workflow_complete m _ => m

/-- The tool_type a tool-scoped event carries. -/
def ProgressEvent.toolTypeField : ProgressEvent → Option ToolType
  | .search_start _ t => some t
  | .api_start _ t => some t
  | .api_success _ t _ => some t
  | .result_quality _ t _ _ => some t
  | .api_error _ t => some t
  | .search_complete _ t _ => some t
  | _ => Option.none

/-- The rational seconds field a timing event carries. -/
def ProgressEvent.secondsField : ProgressEvent → Option Rat
  | .api_success _ _ t => some t
  | .synthesis_complete _ t _ => some t
  | .workflow_complete _ t => some t
  | _ => Option.none

/-- The quality field of a result_quality event. -/
def ProgressEvent.qualityField : ProgressEvent → Option Quality
  | .result_quality _ _ q _ => some q
  | _ => Option.none

/-- The content_length field of a result_quality event. -/
def ProgressEvent.contentLengthField : ProgressEvent → Option Nat
  | .result_quality _ _ _ n => some n
  | _ => Option.none

/-- The tool-scoped tags (spec section 6): events about one strategy's
execution against one tool. -/
def toolScopedTags : List String :=
  ["search_start", "api_start", "api_success", "result_quality",
   "api_error", "search_complete"]

/-- The timing tags (spec section 6): events carrying a float seconds
field. -/
def timingTags : List String :=
  ["api_success", "synthesis_complete", "workflow_complete"]

/-- Decidable payload well-formedness of one event against the section 6
contract: tool-scoped events carry tool_type, timing events carry a seconds
field, result_quality carries a quality drawn from the low/medium/high enum
together with an integer content_length. -/
def payloadWellFormed (e : ProgressEvent) : Bool :=
  (!(toolScopedTags.contains e.tag) || (e.toolTypeField).isSome) &&
  (!(timingTags.contains e.tag) || (e.secondsField).isSome) &&
  (e.tag != "result_quality" ||
    ((e.qualityField).isSome && (e.contentLengthField).isSome &&
      [Quality.low, Quality.medium, Quality.high].contains
        ((e.qualityField).getD Quality.low)))

/-- Number of api_start events in a trace. -/
def countApiStart : List ProgressEvent → Nat
  | [] => 0
  | .api_start _ _ :: rest => countApiStart rest + 1
  | _ :: rest => countApiStart rest

/-- Number of api_success events in a trace. -/
def countApiSuccess : List ProgressEvent → Nat
  | [] => 0
  | .api_success _ _ _ :: rest => countApiSuccess rest + 1
  | _ :: rest => countApiSuccess rest

/-- Number of api_error events in a trace. -/
def countApiError : List ProgressEvent → Nat
  | [] => 0
  | .api_error _ _ :: rest => countApiError rest + 1
  | _ :: rest => countApiError rest

/-- Number of result_quality events in a trace. -/
def countResultQuality : List ProgressEvent → Nat
  | [] => 0
  | .result_quality _ _ _ _ :: rest => countResultQuality rest + 1
  | _ :: rest => countResultQuality rest

/-- Recognizer for the middle of an execute trace: zero or more failed
attempt blocks api_start, api_error, optionally closed by a single
successful block api_start, api_success, result_quality. -/
def attemptBlocks : List ProgressEvent → Bool
  | [] => true
  | .api_start _ _ :: .api_error _ _ :: rest => attemptBlocks rest
  | [.api_start _ _, .api_success _ _ _, .result_quality _ _ _ _] => true
  | _ => false

/-- Modelled from the spec: the attempt loop inside SearchExecutor.execute
(section 4.2). `fuel` is the number of attempts still allowed, the current
one included; on failure the RetryPolicy is consulted and the executor
retries only while the ceiling leaves room. Adapter errors are absorbed
into the returned SearchOutcome, never rethrown. -/
def executeAttempts (tool_type : ToolType) (adapter : Nat → AttemptResult)
    (base_delay : Rat) (max_attempts : Nat) :
    Nat → Nat → List ProgressEvent × SearchOutcome
  | attempt, 0 =>
      ([], { tool_type := tool_type, success := false, content := "",
             content_length := 0, execution_time_seconds := 0,
             quality := .low, error := Option.none, attempt_count := attempt })
  | attempt, fuel + 1 =>
      match adapter attempt with
      | .success content t =>
          ([.api_start "Executing API call" tool_type,
            .api_success "API call succeeded" tool_type t,
            .result_quality "Result quality" tool_type
              (classifyQuality content.length) content.length],
           { tool_type := tool_type, success := true, content := content,
             content_length := content.length, execution_time_seconds := t,
             quality := classifyQuality content.length,
             error := Option.none, attempt_count := attempt })
      | .failure err t =>
          let d := RetryPolicy.decide base_delay max_attempts err.kind attempt
          if d.retry = true ∧ fuel ≠ 0 then
            let rest := executeAttempts tool_type adapter base_delay
              max_attempts (attempt + 1) fuel
            (.api_start "Executing API call" tool_type ::
               .api_error err.message tool_type :: rest.1,
             { rest.2 with execution_time_seconds :=
                 t + rest.2.execution_time_seconds })
          else
            ([.api_start "Executing API call" tool_type,
              .api_error err.message tool_type],
             { tool_type := tool_type, success := false, content := "",
               content_length := 0, execution_time_seconds := t,
               quality := .low, error := some err, attempt_count := attempt })

/-- Modelled from the spec: SearchExecutor.execute (section 4.2): emits
search_start, runs the attempt loop, then search_complete carrying the
outcome's success flag; it returns the SearchOutcome and never raises past
this boundary. -/
def SearchExecutor.execute (strategy : Strategy)
    (adapter : Nat → AttemptResult) (base_delay : Rat) (max_attempts : Nat) :
    List ProgressEvent × SearchOutcome :=
  let r := executeAttempts strategy.tool_type adapter base_delay
    max_attempts 1 max_attempts
  (.search_start "Starting search" strategy.tool_type ::
     (r.1 ++ [.search_complete "Search complete" strategy.tool_type
       r.2.success]),
   r.2)

/-- Modelled from the spec: RunMetadata (section 3), recomputed by the
aggregator from the full outcome set. -/
structure RunMetadata where
  total_searches : Nat
  successful_searches : Nat
  total_execution_time : Rat
  average_execution_time : Rat
  total_content_length : Nat
  tool_type_distribution : List (ToolType × Nat)
  deriving Repr, DecidableEq

/-- Modelled from the spec: ResultAggregator.aggregate (section 4.4), a pure
function of the outcome sequence; the average is over all outcomes and the
distribution counts attempted searches per tool_type. -/
def aggregate (outcomes : List SearchOutcome) : RunMetadata :=
  let total := outcomes.length
  let time := (outcomes.map (fun o => o.execution_time_seconds)).sum
  { total_searches := total,
    successful_searches := (outcomes.filter (fun o => o.success)).length,
    total_execution_time := time,
    average_execution_time := if total = 0 then 0 else time / (total : Rat),
    total_content_length := (outcomes.map (fun o => o.content_length)).sum,
    tool_type_distribution :=
      [ToolType.news, .transcripts, .filings, .knowledge_graph].filterMap
        (fun t =>
          let c := (outcomes.filter (fun o => o.tool_type == t)).length
          if c = 0 then Option.none else some (t, c)) }

/-- Modelled from the spec: the terminal WorkflowResult (sections 3 and 6). -/
structure WorkflowResult where
  final_results : String
  source_metadata : RunMetadata
  outcomes : List SearchOutcome
  deriving Repr, DecidableEq

/-- A typed value of the metadata mapping. -/
inductive MetaVal where
  | natV (n : Nat)
  | ratV (q : Rat)
  | distV (d : List (ToolType × Nat))
  deriving Repr, DecidableEq

/-- Generic association-list lookup used for the typed result mappings. -/
def lookupKey {α : Type} (d : List (String × α)) (k : String) : Option α :=
  (d.find? (fun p => p.1 == k)).map Prod.snd

/-- Modelled from the spec: the RunMetadata mapping as returned inside the
final WorkflowResult (section 6: field names exactly as in section 3). -/
def RunMetadata.toMapping (md : RunMetadata) : List (String × MetaVal) :=
  [("total_searches", .natV md.total_searches),
   ("successful_searches", .natV md.successful_searches),
   ("total_execution_time", .ratV md.total_execution_time),
   ("average_execution_time", .ratV md.average_execution_time),
   ("total_content_length", .natV md.total_content_length),
   ("tool_type_distribution", .distV md.tool_type_distribution)]

/-- A typed value of the returned workflow-result mapping. -/
inductive ResultVal where
  | strV (s : String)
  | metaV (md : RunMetadata)
  deriving Repr, DecidableEq

/-- Modelled from the spec: the final WorkflowResult as the mapping the
blocking entry point returns (section 6): at least the keys final_results
and source_metadata. -/
def WorkflowResult.toMapping (w : WorkflowResult) : List (String × ResultVal) :=
  [("final_results", .strV w.final_results),
   ("source_metadata", .metaV w.source_metadata)]

/-- The metadata keys the statistics table in `main` reads from
`final_result["source_metadata"]` (streaming_example.py lines 414-422). -/
def main_stats_keys : List String :=
  ["total_searches", "successful_searches", "total_execution_time",
   "average_execution_time", "total_content_length",
   "tool_type_distribution"]

/-- Modelled from the spec: one run configuration (section 6) together with
the oracles standing for the external collaborators: the planner's
structured output, the tool adapters (strategy slot, attempt number) and
the synthesis collaborator's report. -/
structure RunConfig where
  topic : String
  planner_output : List RawStrategy
  adapters : Nat → Nat → AttemptResult
  synthesized_report : String
  bigdata_rate_limit_delay : Rat
  max_attempts : Nat

/-- The artifacts of one pipeline execution: the emitted event stream, the
final result (or the fatal PlanningError), and the number of external API
calls performed. -/
structure RunResult where
  events : List ProgressEvent
  result : Except PlanningError WorkflowResult
  api_calls : Nat

/-- Modelled from the spec: one full pipeline execution
plan, search, gather, compile (sections 4.1-4.6 control flow). -/
def runPipeline (cfg : RunConfig) : RunResult :=
  match StrategyPlanner.plan cfg.planner_output with
  | .error e =>
      { events := [.planning_start "Planning search strategies"],
        result := .error e, api_calls := 0 }
  | .ok strategies =>
      let runs := ((List.range strategies.length).zip strategies).map
        (fun p => SearchExecutor.execute p.2 (cfg.adapters p.1)
          cfg.bigdata_rate_limit_delay cfg.max_attempts)
      let outcomes := runs.map Prod.snd
      let md := aggregate outcomes
      { events :=
          [.planning_start "Planning search strategies",
           .planning_ready "Search plan ready"] ++
          (runs.map Prod.fst).flatten ++
          [.gathering_start "Gathering results",
           .gathering_complete "Gathering complete",
           .compilation_start "Compiling report",
           .synthesis_start "Synthesizing report",
           .synthesis_complete "Synthesis complete" 0
             cfg.synthesized_report.length,
           .report_stats "Report statistics",
           .workflow_complete "Workflow complete" 0],
        result := .ok { final_results := cfg.synthesized_report,
                        source_metadata := md, outcomes := outcomes },
        api_calls := (outcomes.map (fun o => o.attempt_count)).sum }

/-- Modelled from the spec: the orchestrator treats a run as a single
memoized execution reachable through either access pattern (section 4.6).
`executions` counts pipeline executions, `api_calls_made` the external
calls actually performed. -/
structure GraphState where
  cache : Option RunResult
  executions : Nat
  api_calls_made : Nat

/-- An orchestrator that has not run yet. -/
def GraphState.fresh : GraphState :=
  { cache := Option.none, executions := 0, api_calls_made := 0 }

/-- Run the pipeline once and memoize, or reuse the memoized run. -/
def ensureRun (g : GraphState) (cfg : RunConfig) : GraphState × RunResult :=
  match g.cache with
  | some r => (g, r)
  | Option.none =>
      let r := runPipeline cfg
      ({ cache := some r, executions := g.executions + 1,
         api_calls_made := g.api_calls_made + r.api_calls }, r)

/-- Modelled from the spec: the streaming access pattern (section 4.6) —
the finite event sequence of the (memoized) run. -/
def astream (g : GraphState) (cfg : RunConfig) :
    GraphState × List ProgressEvent :=
  let p := ensureRun g cfg
  (p.1, p.2.events)

/-- Modelled from the spec: the blocking access pattern (section 4.6) —
the final value of the (memoized) run. -/
def ainvoke (g : GraphState) (cfg : RunConfig) :
    GraphState × Except PlanningError WorkflowResult :=
  let p := ensureRun g cfg
  (p.1, p.2.result)

/-! ## Helper lemmas -/

/-- A value recognised by `isStr` is literally a `PyVal.str`. -/
theorem isStr_exists {v : PyVal} (h : v.isStr = true) : ∃ s, v = .str s := by
  cases v <;> first | exact ⟨_, rfl⟩ | simp [PyVal.isStr] at h

/-- `:.1f` succeeds on numeric values. -/
theorem fmtFixed1_ok {v : PyVal} (h : v.isNum = true) :
    ∃ s, fmtFixed1 v = .ok s := by
  cases v <;> first | exact ⟨_, rfl⟩ | simp [PyVal.isNum] at h

/-- `:,` succeeds on numeric values. -/
theorem fmtComma_ok {v : PyVal} (h : v.isNum = true) :
    ∃ s, fmtComma v = .ok s := by
  cases v <;> first | exact ⟨_, rfl⟩ | simp [PyVal.isNum] at h

/-- Every tool type's wire name is in the prompts' RULES enum. -/
theorem toolType_toString_mem (t : ToolType) :
    t.toString ∈ tool_type_enum := by
  cases t <;> decide

/-- No tool type prints as "universal". -/
theorem toolType_toString_ne_universal (t : ToolType) :
    t.toString ≠ "universal" := by
  cases t <;> decide

/-- A successfully parsed tool_type string is the wire name of the result. -/
theorem ofString_toString {s : String} {t : ToolType}
    (h : ToolType.ofString s = some t) : t.toString = s := by
  unfold ToolType.ofString at h
  split_ifs at h with h1 h2 h3 h4
  · cases h; subst h1; rfl
  · cases h; subst h2; rfl
  · cases h; subst h3; rfl
  · cases h; subst h4; rfl

/-- What a validated strategy guarantees about its raw input and itself. -/
theorem validateStrategy_ok_inv {raw : RawStrategy} {s : Strategy}
    (h : validateStrategy raw = .ok s) :
    raw.tool_type = some s.tool_type.toString ∧
    raw.queries = some s.queries ∧
    s.queries ≠ [] ∧ 1 ≤ s.priority ∧ s.priority ≤ 5 := by
  obtain ⟨ots, oqs, params, odesc, opri⟩ := raw
  rcases ots with _ | ts
  · simp [validateStrategy] at h
  rcases htt : ToolType.ofString ts with _ | tt
  · simp [validateStrategy, htt] at h
  rcases oqs with _ | qs
  · simp [validateStrategy, htt] at h
  by_cases hq : qs = []
  · simp [validateStrategy, htt, hq] at h
  rcases odesc with _ | d
  · simp [validateStrategy, htt, hq] at h
  rcases opri with _ | p
  · simp [validateStrategy, htt, hq] at h
  by_cases hpr : 1 ≤ p ∧ p ≤ 5
  · simp only [validateStrategy, htt, if_neg hq, if_pos hpr,
      Except.ok.injEq] at h
    subst h
    exact ⟨by rw [ofString_toString htt], rfl, hq, hpr.1, hpr.2⟩
  · simp [validateStrategy, htt, hq, hpr] at h

/-- Membership in an admitted plan comes from a validated raw strategy. -/
theorem plan_mem {raws : List RawStrategy} {out : List Strategy}
    (h : StrategyPlanner.plan raws = .ok out) {s : Strategy} (hs : s ∈ out) :
    ∃ raw, raw ∈ raws ∧ validateStrategy raw = .ok s := by
  induction raws generalizing out with
  | nil =>
      simp only [StrategyPlanner.plan, Except.ok.injEq] at h
      subst h; cases hs
  | cons raw rest ih =>
      simp only [StrategyPlanner.plan] at h
      cases hv : validateStrategy raw with
      | error e => simp [hv] at h
      | ok s0 =>
          cases hp : StrategyPlanner.plan rest with
          | error e => simp [hv, hp] at h
          | ok out0 =>
              simp only [hv, hp, Except.ok.injEq] at h
              subst h
              rcases List.mem_cons.mp hs with rfl | hs2
              · exact ⟨raw, by simp, hv⟩
              · obtain ⟨r, hr, hvr⟩ := ih hp hs2
                exact ⟨r, by simp [hr], hvr⟩

/-- Unfolding lemmas for the trace counters on the constructors that occur
in executor traces. -/
theorem countApiStart_nil : countApiStart [] = 0 := rfl

theorem countApiStart_cons_start (m : String) (t : ToolType)
    (rest : List ProgressEvent) :
    countApiStart (.api_start m t :: rest) = countApiStart rest + 1 := rfl

theorem countApiStart_cons_error (m : String) (t : ToolType)
    (rest : List ProgressEvent) :
    countApiStart (.api_error m t :: rest) = countApiStart rest := rfl

theorem countApiStart_cons_success (m : String) (t : ToolType) (x : Rat)
    (rest : List ProgressEvent) :
    countApiStart (.api_success m t x :: rest) = countApiStart rest := rfl

theorem countApiStart_cons_quality (m : String) (t : ToolType) (q : Quality)
    (n : Nat) (rest : List ProgressEvent) :
    countApiStart (.result_quality m t q n :: rest) = countApiStart rest := rfl

theorem countApiSuccess_nil : countApiSuccess [] = 0 := rfl

theorem countApiSuccess_cons_start (m : String) (t : ToolType)
    (rest : List ProgressEvent) :
    countApiSuccess (.api_start m t :: rest) = countApiSuccess rest := rfl

theorem countApiSuccess_cons_error (m : String) (t : ToolType)
    (rest : List ProgressEvent) :
    countApiSuccess (.api_error m t :: rest) = countApiSuccess rest := rfl

theorem countApiSuccess_cons_success (m : String) (t : ToolType) (x : Rat)
    (rest : List ProgressEvent) :
    countApiSuccess (.api_success m t x :: rest) = countApiSuccess rest + 1 :=
  rfl

theorem countApiSuccess_cons_quality (m : String) (t : ToolType) (q : Quality)
    (n : Nat) (rest : List ProgressEvent) :
    countApiSuccess (.result_quality m t q n :: rest) = countApiSuccess rest :=
  rfl

theorem countApiError_nil : countApiError [] = 0 := rfl

theorem countApiError_cons_start (m : String) (t : ToolType)
    (rest : List ProgressEvent) :
    countApiError (.api_start m t :: rest) = countApiError rest := rfl

theorem countApiError_cons_error (m : String) (t : ToolType)
    (rest : List ProgressEvent) :
    countApiError (.api_error m t :: rest) = countApiError rest + 1 := rfl

theorem countApiError_cons_success (m : String) (t : ToolType) (x : Rat)
    (rest : List ProgressEvent) :
    countApiError (.api_success m t x :: rest) = countApiError rest := rfl

theorem countApiError_cons_quality (m : String) (t : ToolType) (q : Quality)
    (n : Nat) (rest : List ProgressEvent) :
    countApiError (.result_quality m t q n :: rest) = countApiError rest := rfl

theorem countResultQuality_nil : countResultQuality [] = 0 := rfl

theorem countResultQuality_cons_start (m : String) (t : ToolType)
    (rest : List ProgressEvent) :
    countResultQuality (.api_start m t :: rest) = countResultQuality rest :=
  rfl

theorem countResultQuality_cons_error (m : String) (t : ToolType)
    (rest : List ProgressEvent) :
    countResultQuality (.api_error m t :: rest) = countResultQuality rest :=
  rfl

theorem countResultQuality_cons_success (m : String) (t : ToolType) (x : Rat)
    (rest : List ProgressEvent) :
    countResultQuality (.api_success m t x :: rest) = countResultQuality rest :=
  rfl

theorem countResultQuality_cons_quality (m : String) (t : ToolType)
    (q : Quality) (n : Nat) (rest : List ProgressEvent) :
    countResultQuality (.result_quality m t q n :: rest) =
      countResultQuality rest + 1 := rfl

theorem attemptBlocks_nil : attemptBlocks [] = true := rfl

theorem attemptBlocks_fail_block (m1 m2 : String) (t1 t2 : ToolType)
    (rest : List ProgressEvent) :
    attemptBlocks (.api_start m1 t1 :: .api_error m2 t2 :: rest) =
      attemptBlocks rest := rfl

theorem attemptBlocks_success_block (m1 m2 m3 : String) (t1 t2 t3 : ToolType)
    (x : Rat) (q : Quality) (n : Nat) :
    attemptBlocks [.api_start m1 t1, .api_success m2 t2 x,
      .result_quality m3 t3 q n] = true := rfl

/-- Shape and counting facts about the executor attempt loop: the trace is
a sequence of attempt blocks, api_start occurs once per attempt,
each attempt ends in exactly one of api_success/api_error, and
result_quality/api_success occur exactly once on a successful run and never
on a failed one. -/
theorem executeAttempts_spec (tool_type : ToolType)
    (adapter : Nat → AttemptResult) (base_delay : Rat) (max_attempts : Nat) :
    ∀ fuel attempt, 1 ≤ fuel →
      attemptBlocks
        (executeAttempts tool_type adapter base_delay max_attempts attempt
          fuel).1 = true ∧
      countApiStart
          (executeAttempts tool_type adapter base_delay max_attempts attempt
            fuel).1 + attempt =
        (executeAttempts tool_type adapter base_delay max_attempts attempt
          fuel).2.attempt_count + 1 ∧
      countApiSuccess
          (executeAttempts tool_type adapter base_delay max_attempts attempt
            fuel).1 +
        countApiError
          (executeAttempts tool_type adapter base_delay max_attempts attempt
            fuel).1 =
        countApiStart
          (executeAttempts tool_type adapter base_delay max_attempts attempt
            fuel).1 ∧
      countResultQuality
          (executeAttempts tool_type adapter base_delay max_attempts attempt
            fuel).1 =
        (if (executeAttempts tool_type adapter base_delay max_attempts attempt
          fuel).2.success = true then 1 else 0) ∧
      countApiSuccess
          (executeAttempts tool_type adapter base_delay max_attempts attempt
            fuel).1 =
        (if (executeAttempts tool_type adapter base_delay max_attempts attempt
          fuel).2.success = true then 1 else 0) := by
  intro fuel
  induction fuel with
  | zero => intro attempt h; exact absurd h (by omega)
  | succ f ih =>
      intro attempt _
      cases hres : adapter attempt with
      | success content t =>
          simp [executeAttempts, hres, attemptBlocks_success_block,
            countApiStart_cons_start, countApiStart_cons_success,
            countApiStart_cons_quality, countApiStart_nil,
            countApiSuccess_cons_start, countApiSuccess_cons_success,
            countApiSuccess_cons_quality, countApiSuccess_nil,
            countApiError_cons_start, countApiError_cons_success,
            countApiError_cons_quality, countApiError_nil,
            countResultQuality_cons_start, countResultQuality_cons_success,
            countResultQuality_cons_quality, countResultQuality_nil]
          omega
      | failure err t =>
          by_cases hd :
            (RetryPolicy.decide base_delay max_attempts err.kind
              attempt).retry = true ∧ f ≠ 0
          · have hf : 1 ≤ f := Nat.one_le_iff_ne_zero.mpr hd.2
            obtain ⟨ih1, ih2, ih3, ih4, ih5⟩ := ih (attempt + 1) hf
            simp only [executeAttempts, hres, if_pos hd]
            refine ⟨?_, ?_, ?_, ?_, ?_⟩
            · simpa [attemptBlocks_fail_block] using ih1
            · simp only [countApiStart_cons_start, countApiStart_cons_error]
              omega
            · simp only [countApiStart_cons_start, countApiStart_cons_error,
                countApiSuccess_cons_start, countApiSuccess_cons_error,
                countApiError_cons_start, countApiError_cons_error]
              omega
            · simpa [countResultQuality_cons_start,
                countResultQuality_cons_error] using ih4
            · simpa [countApiSuccess_cons_start, countApiSuccess_cons_error]
                using ih5
          · simp only [executeAttempts, hres, if_neg hd]
            refine ⟨rfl, ?_, rfl, rfl, rfl⟩
            simp only [countApiStart_cons_start, countApiStart_cons_error,
              countApiStart_nil]
            omega

/-! ## Claim theorems -/

/-- C1: invoking the streaming mode and then the blocking mode on the same
run configuration observes one memoized pipeline execution: the blocking
retrieval returns exactly the result of that single run (same
`final_results` and `source_metadata` the stream's run produced), the
stream is that run's event sequence, the pipeline executed once, and no API
call is duplicated. -/
theorem C1_single_memoized_execution (cfg : RunConfig) :
    (ainvoke (astream GraphState.fresh cfg).1 cfg).2 =
      (runPipeline cfg).result ∧
    (astream GraphState.fresh cfg).2 = (runPipeline cfg).events ∧
    (ainvoke (astream GraphState.fresh cfg).1 cfg).1.executions = 1 ∧
    (ainvoke (astream GraphState.fresh cfg).1 cfg).1.api_calls_made =
      (runPipeline cfg).api_calls := by
  refine ⟨rfl, rfl, rfl, ?_⟩
  simp [astream, ainvoke, ensureRun, GraphState.fresh]

/-- C3: for rate_limit errors the retry delay is
base_delay * 2 ^ (attempt_count - 1), strictly increasing in attempt_count,
and retries are granted exactly while attempt_count is below the configured
maximum number of attempts; for auth errors the policy retries exactly when
attempt_count ≤ 1 (at most once) and with zero delay. -/
theorem C3_retry_policy_backoff (base_delay : Rat) (max_attempts : Nat)
    (a b : Nat) (hb : 0 < base_delay) (ha : 1 ≤ a) (hab : a < b) :
    (RetryPolicy.decide base_delay max_attempts .rate_limit a).delay_seconds =
      base_delay * 2 ^ (a - 1) ∧
    (RetryPolicy.decide base_delay max_attempts .rate_limit a).delay_seconds <
      (RetryPolicy.decide base_delay max_attempts .rate_limit b).delay_seconds ∧
    ((RetryPolicy.decide base_delay max_attempts .rate_limit a).retry = true ↔
      a < max_attempts) ∧
    ((RetryPolicy.decide base_delay max_attempts .auth a).retry = true ↔
      a ≤ 1) ∧
    (RetryPolicy.decide base_delay max_attempts .auth a).delay_seconds = 0 := by
  refine ⟨rfl, ?_, by simp [RetryPolicy.decide],
    by simp [RetryPolicy.decide], rfl⟩
  have h2 : (2 : Rat) ^ (a - 1) < 2 ^ (b - 1) := by
    apply pow_lt_pow_right₀ (by norm_num)
    omega
  exact mul_lt_mul_of_pos_left h2 hb

/-- C3 witness: the policy at base delay 3/2, ceiling 3, attempts 1 and 2. -/
theorem C3_retry_policy_backoff_witness :
    (RetryPolicy.decide (3 / 2) 3 .rate_limit 1).delay_seconds =
      (3 / 2) * 2 ^ (1 - 1) ∧
    (RetryPolicy.decide (3 / 2) 3 .rate_limit 1).delay_seconds <
      (RetryPolicy.decide (3 / 2) 3 .rate_limit 2).delay_seconds ∧
    ((RetryPolicy.decide (3 / 2) 3 .rate_limit 1).retry = true ↔ 1 < 3) ∧
    ((RetryPolicy.decide (3 / 2) 3 .auth 1).retry = true ↔ 1 ≤ 1) ∧
    (RetryPolicy.decide (3 / 2) 3 .auth 1).delay_seconds = 0 :=
  C3_retry_policy_backoff (3 / 2) 3 1 2 (by norm_num) (by norm_num)
    (by norm_num)

/-- C6: every ProgressEvent carries a tag from the fixed 22-tag vocabulary
and (by the totality of `ProgressEvent.message`) a message; tool-scoped
events carry tool_type, timing events carry a rational seconds field, and
result_quality carries a quality from the low/medium/high enum and an
integer content_length. -/
theorem C6_progress_event_payload (e : ProgressEvent) :
    e.tag ∈ eventTagVocabulary ∧
    eventTagVocabulary.length = 22 ∧
    payloadWellFormed e = true := by
  refine ⟨?_, rfl, ?_⟩
  · cases e <;> simp [ProgressEvent.tag, eventTagVocabulary]
  · cases e <;> try rfl
    rename_i m t q n
    cases q <;> rfl

/-- C7: the blocking entry point's WorkflowResult mapping carries at least
the keys final_results (the report string) and source_metadata (the
RunMetadata mapping), and the metadata mapping's field names are exactly
total_searches, successful_searches, total_execution_time,
average_execution_time, total_content_length, tool_type_distribution —
exactly the keys the statistics table in `main` reads. -/
theorem C7_workflow_result_mapping (w : WorkflowResult) :
    lookupKey w.toMapping "final_results" = some (.strV w.final_results) ∧
    lookupKey w.toMapping "source_metadata" =
      some (.metaV w.source_metadata) ∧
    w.source_metadata.toMapping.map Prod.fst = main_stats_keys ∧
    main_stats_keys = ["total_searches", "successful_searches",
      "total_execution_time", "average_execution_time",
      "total_content_length", "tool_type_distribution"] :=
  ⟨rfl, rfl, rfl, rfl⟩

/-- C8 counterexample: the configuration `main` builds has no option named
rate_limit_delay; the backoff base is configured under the key
bigdata_rate_limit_delay (value 1.5 seconds). -/
theorem C8_rate_limit_delay_key_counterexample :
    dictGet? main_configurable "rate_limit_delay" = Option.none ∧
    dictGet? main_input_state "rate_limit_delay" = Option.none ∧
    dictGet? main_configurable "bigdata_rate_limit_delay" =
      some (PyVal.float (3 / 2)) :=
  ⟨rfl, rfl, rfl⟩

/-- C8 amended: the recognized configuration surface includes the option
named bigdata_rate_limit_delay (float seconds, the backoff base), alongside
search_depth ≥ 1, max_results_per_strategy ≥ 1, number_of_queries ≥ 1, and
date_range drawn from the closed enum of prompts.py line 42. -/
theorem C8_config_surface_amended :
    (∃ q : Rat, dictGet? main_configurable "bigdata_rate_limit_delay" =
      some (.float q) ∧ 0 < q) ∧
    (∃ n : Int, dictGet? main_configurable "search_depth" =
      some (.int n) ∧ 1 ≤ n) ∧
    (∃ n : Int, dictGet? main_configurable "max_results_per_strategy" =
      some (.int n) ∧ 1 ≤ n) ∧
    (∃ n : Int, dictGet? main_configurable "number_of_queries" =
      some (.int n) ∧ 1 ≤ n) ∧
    (∃ s : String, dictGet? main_input_state "date_range" =
      some (.str s) ∧ s ∈ date_range_enum) :=
  ⟨⟨3 / 2, rfl, by norm_num⟩, ⟨2, rfl, by norm_num⟩, ⟨5, rfl, by norm_num⟩,
    ⟨2, rfl, by norm_num⟩, ⟨"last_90_days", rfl, by decide⟩⟩

/-- C9: the statistics table's success-rate divisor
max(total_searches default 1, 1) is positive for every metadata mapping
(missing key and zero included), so the division is defined; and whenever
successful_searches reads as 0 (in particular when there were no searches)
the displayed rate is 0. -/
theorem C9_success_rate_guard (metadata : List (String × PyVal)) :
    0 < max (pyGetNum metadata "total_searches" 1) 1 ∧
    (pyGetNum metadata "successful_searches" 0 = 0 →
      success_rate metadata = 0) := by
  constructor
  · exact lt_of_lt_of_le one_pos (le_max_right _ _)
  · intro h
    unfold success_rate
    rw [h]
    simp

/-- C9 witness: a metadata mapping recording zero searches. -/
theorem C9_success_rate_guard_witness :
    0 < max (pyGetNum [("total_searches", PyVal.int 0),
      ("successful_searches", PyVal.int 0)] "total_searches" 1) 1 ∧
    success_rate [("total_searches", PyVal.int 0),
      ("successful_searches", PyVal.int 0)] = 0 :=
  ⟨(C9_success_rate_guard _).1,
    (C9_success_rate_guard [("total_searches", PyVal.int 0),
      ("successful_searches", PyVal.int 0)]).2 (by decide)⟩

/-- C2: every strategy admitted by the planner has tool_type in the closed
four-value enum (which does not admit "universal"), a non-empty queries
list and a priority in [1,5]; a malformed collaborator strategy (wrong enum
value such as "universal", missing required field, empty queries list)
fails validation with a PlanningError instead of being coerced. -/
theorem C2_planner_validation (raws : List RawStrategy) (out : List Strategy)
    (s : Strategy) (raw' : RawStrategy)
    (hplan : StrategyPlanner.plan raws = .ok out) (hmem : s ∈ out)
    (hbad : raw'.tool_type = some "universal" ∨
      raw'.tool_type = Option.none ∨
      raw'.queries = some ([] : List String) ∨
      raw'.queries = Option.none) :
    s.tool_type.toString ∈ tool_type_enum ∧
    "universal" ∉ tool_type_enum ∧
    s.queries ≠ [] ∧ 1 ≤ s.priority ∧ s.priority ≤ 5 ∧
    ∃ e : PlanningError, validateStrategy raw' = .error e := by
  obtain ⟨raw, hr, hv⟩ := plan_mem hplan hmem
  obtain ⟨h1, h2, h3, h4, h5⟩ := validateStrategy_ok_inv hv
  refine ⟨toolType_toString_mem _, by decide, h3, h4, h5, ?_⟩
  cases hv' : validateStrategy raw' with
  | error e => exact ⟨e, rfl⟩
  | ok s' =>
      exfalso
      obtain ⟨g1, g2, g3, _, _⟩ := validateStrategy_ok_inv hv'
      rcases hbad with hb | hb | hb | hb
      · rw [hb] at g1
        injection g1 with g1'
        exact toolType_toString_ne_universal s'.tool_type g1'.symm
      · rw [hb] at g1; cases g1
      · rw [hb] at g2
        injection g2 with g2'
        exact g3 g2'.symm
      · rw [hb] at g2; cases g2

/-- C2 witness: a well-formed news strategy is admitted with the claimed
invariants, and a "universal" strategy is rejected. -/
theorem C2_planner_validation_witness :
    (⟨ToolType.news, ["q1", "q2"], [], "desc", 3⟩ :
      Strategy).tool_type.toString ∈ tool_type_enum ∧
    "universal" ∉ tool_type_enum ∧
    (⟨ToolType.news, ["q1", "q2"], [], "desc", 3⟩ : Strategy).queries ≠ [] ∧
    1 ≤ (⟨ToolType.news, ["q1", "q2"], [], "desc", 3⟩ : Strategy).priority ∧
    (⟨ToolType.news, ["q1", "q2"], [], "desc", 3⟩ : Strategy).priority ≤ 5 ∧
    ∃ e : PlanningError,
      validateStrategy ⟨some "universal", some ["q"], [], some "d", some 3⟩ =
        .error e :=
  C2_planner_validation
    [⟨some "news", some ["q1", "q2"], [], some "desc", some 3⟩]
    [⟨ToolType.news, ["q1", "q2"], [], "desc", 3⟩]
    ⟨ToolType.news, ["q1", "q2"], [], "desc", 3⟩
    ⟨some "universal", some ["q"], [], some "d", some 3⟩
    rfl (by simp) (Or.inl rfl)

/-- C4: every execute call emits search_start first and search_complete
last (the latter carrying the outcome's success flag); the middle is a
sequence of attempt blocks, each opening with api_start and closing with
exactly one of api_success/api_error; result_quality appears exactly once
when the run succeeded and never otherwise; api_start occurs attempt_count
times, so retries are visible only as repeated api_start/api_error blocks
and through attempt_count. -/
theorem C4_execute_event_order (strategy : Strategy)
    (adapter : Nat → AttemptResult) (base_delay : Rat) (max_attempts : Nat)
    (h : 1 ≤ max_attempts) :
    ∃ mid : List ProgressEvent,
      (SearchExecutor.execute strategy adapter base_delay max_attempts).1 =
        ProgressEvent.search_start "Starting search" strategy.tool_type ::
          (mid ++ [ProgressEvent.search_complete "Search complete"
            strategy.tool_type
            (SearchExecutor.execute strategy adapter base_delay
              max_attempts).2.success]) ∧
      attemptBlocks mid = true ∧
      countApiStart mid =
        (SearchExecutor.execute strategy adapter base_delay
          max_attempts).2.attempt_count ∧
      countApiSuccess mid + countApiError mid = countApiStart mid ∧
      countResultQuality mid =
        (if (SearchExecutor.execute strategy adapter base_delay
          max_attempts).2.success = true then 1 else 0) ∧
      countApiSuccess mid =
        (if (SearchExecutor.execute strategy adapter base_delay
          max_attempts).2.success = true then 1 else 0) := by
  obtain ⟨h1, h2, h3, h4, h5⟩ := executeAttempts_spec strategy.tool_type
    adapter base_delay max_attempts max_attempts 1 h
  simp only [SearchExecutor.execute]
  exact ⟨(executeAttempts strategy.tool_type adapter base_delay max_attempts
    1 max_attempts).1, rfl, h1, by omega, h3, h4, h5⟩

/-- C4 witness: a news strategy whose adapter succeeds instantly, ceiling
3. -/
theorem C4_execute_event_order_witness :
    ∃ mid : List ProgressEvent,
      (SearchExecutor.execute ⟨ToolType.news, ["q"], [], "d", 3⟩
        (fun _ => AttemptResult.success "hello" 2) (3 / 2) 3).1 =
        ProgressEvent.search_start "Starting search" ToolType.news ::
          (mid ++ [ProgressEvent.search_complete "Search complete"
            ToolType.news
            (SearchExecutor.execute ⟨ToolType.news, ["q"], [], "d", 3⟩
              (fun _ => AttemptResult.success "hello" 2)
              (3 / 2) 3).2.success]) ∧
      attemptBlocks mid = true ∧
      countApiStart mid =
        (SearchExecutor.execute ⟨ToolType.news, ["q"], [], "d", 3⟩
          (fun _ => AttemptResult.success "hello" 2)
          (3 / 2) 3).2.attempt_count ∧
      countApiSuccess mid + countApiError mid = countApiStart mid ∧
      countResultQuality mid =
        (if (SearchExecutor.execute ⟨ToolType.news, ["q"], [], "d", 3⟩
          (fun _ => AttemptResult.success "hello" 2)
          (3 / 2) 3).2.success = true then 1 else 0) ∧
      countApiSuccess mid =
        (if (SearchExecutor.execute ⟨ToolType.news, ["q"], [], "d", 3⟩
          (fun _ => AttemptResult.success "hello" 2)
          (3 / 2) 3).2.success = true then 1 else 0) :=
  C4_execute_event_order ⟨ToolType.news, ["q"], [], "d", 3⟩
    (fun _ => AttemptResult.success "hello" 2) (3 / 2) 3 (by norm_num)

/-- C5: when the adapter always fails with kind unknown, execute returns a
SearchOutcome (it does not raise past the boundary) with success = false,
attempt_count = 1 — no retry — and a populated ErrorRecord of kind unknown;
the trace shows the single failed attempt. -/
theorem C5_unknown_error_no_retry (strategy : Strategy)
    (adapter : Nat → AttemptResult) (base_delay : Rat) (max_attempts : Nat)
    (h : 1 ≤ max_attempts)
    (hfail : ∀ n : Nat, ∃ msg : String, ∃ t ts : Rat,
      adapter n = .failure ⟨.unknown, msg, ts⟩ t) :
    (SearchExecutor.execute strategy adapter base_delay
      max_attempts).2.success = false ∧
    (SearchExecutor.execute strategy adapter base_delay
      max_attempts).2.attempt_count = 1 ∧
    (∃ e : ErrorRecord, (SearchExecutor.execute strategy adapter base_delay
      max_attempts).2.error = some e ∧ e.kind = .unknown) ∧
    (∃ msg : String, (SearchExecutor.execute strategy adapter base_delay
      max_attempts).1 =
      [.search_start "Starting search" strategy.tool_type,
       .api_start "Executing API call" strategy.tool_type,
       .api_error msg strategy.tool_type,
       .search_complete "Search complete" strategy.tool_type false]) := by
  obtain ⟨m, hm⟩ : ∃ m, max_attempts = m + 1 := ⟨max_attempts - 1, by omega⟩
  obtain ⟨msg, t, ts, ha⟩ := hfail 1
  subst hm
  refine ⟨?_, ?_,
    ⟨{ kind := .unknown, message := msg, occurred_at := ts }, ?_, rfl⟩,
    ⟨msg, ?_⟩⟩ <;>
    simp [SearchExecutor.execute, executeAttempts, ha, RetryPolicy.decide]

/-- C5 witness: a filings strategy whose adapter always fails with an
unknown error, ceiling 3. -/
theorem C5_unknown_error_no_retry_witness :
    (SearchExecutor.execute ⟨ToolType.filings, ["q"], [], "d", 2⟩
      (fun _ => AttemptResult.failure
        { kind := .unknown, message := "boom", occurred_at := 0 } 1)
      1 3).2.success = false ∧
    (SearchExecutor.execute ⟨ToolType.filings, ["q"], [], "d", 2⟩
      (fun _ => AttemptResult.failure
        { kind := .unknown, message := "boom", occurred_at := 0 } 1)
      1 3).2.attempt_count = 1 ∧
    (∃ e : ErrorRecord,
      (SearchExecutor.execute ⟨ToolType.filings, ["q"], [], "d", 2⟩
        (fun _ => AttemptResult.failure
          { kind := .unknown, message := "boom", occurred_at := 0 } 1)
        1 3).2.error = some e ∧ e.kind = .unknown) ∧
    (∃ msg : String,
      (SearchExecutor.execute ⟨ToolType.filings, ["q"], [], "d", 2⟩
        (fun _ => AttemptResult.failure
          { kind := .unknown, message := "boom", occurred_at := 0 } 1)
        1 3).1 =
      [.search_start "Starting search" ToolType.filings,
       .api_start "Executing API call" ToolType.filings,
       .api_error msg ToolType.filings,
       .search_complete "Search complete" ToolType.filings false]) :=
  C5_unknown_error_no_retry ⟨ToolType.filings, ["q"], [], "d", 2⟩
    (fun _ => AttemptResult.failure
      { kind := .unknown, message := "boom", occurred_at := 0 } 1)
    1 3 (by norm_num) (fun _ => ⟨"boom", 1, 0, rfl⟩)

/-- C10 counterexample: a mapping chunk (message absent, so string-typed
whenever present) whose execution_time is the string "fast" makes
handle_custom_stream raise: the api_success branch applies the `:.1f`
format spec to it. So the claim does not hold for every mapping chunk. -/
theorem C10_wrong_typed_payload_counterexample :
    handle_custom_stream
      [("type", PyVal.str "api_success"),
       ("execution_time", PyVal.str "fast")] initMonitor =
    .error "ValueError: Unknown format code f for object of type str" := rfl

set_option maxHeartbeats 1000000 in
/-- C10 amended: for every mapping chunk whose present payload fields carry
their expected types (string message, tool_type, quality; numeric
execution_time, content_length, total_time — absent fields are
unconstrained because every read supplies a default), handle_custom_stream
returns normally; and a chunk whose type tag is missing or outside the
22-tag vocabulary is silently ignored: no state change and no error. -/
theorem C10_handler_no_raise (c : Chunk) (m : Monitor)
    (h : c.wellTyped = true) :
    (∃ m' : Monitor, handle_custom_stream c m = .ok m') ∧
    ((∀ s ∈ eventTagVocabulary, c.get "type" (.str "unknown") ≠ PyVal.str s) →
      handle_custom_stream c m = .ok m) := by
  simp only [Chunk.wellTyped, Bool.and_eq_true] at h
  obtain ⟨⟨⟨⟨⟨hmsg, htool⟩, hqual⟩, hexec⟩, hclen⟩, htot⟩ := h
  obtain ⟨ms, hms⟩ := isStr_exists hmsg
  obtain ⟨ts, hts⟩ := isStr_exists htool
  obtain ⟨qs, hqs⟩ := isStr_exists hqual
  obtain ⟨es, hes⟩ := fmtFixed1_ok hexec
  obtain ⟨cs, hcs⟩ := fmtComma_ok hclen
  obtain ⟨gs, hgs⟩ := fmtFixed1_ok htot
  constructor
  · unfold handle_custom_stream
    dsimp only
    by_cases h1 : c.get "type" (.str "unknown") = PyVal.str "planning_start"
    · rw [if_pos h1]; exact ⟨_, rfl⟩
    rw [if_neg h1]
    by_cases h2 : c.get "type" (.str "unknown") = PyVal.str "planning_config"
    · rw [if_pos h2]; exact ⟨_, rfl⟩
    rw [if_neg h2]
    by_cases h3 : c.get "type" (.str "unknown") = PyVal.str "planning_model"
    · rw [if_pos h3]; exact ⟨_, rfl⟩
    rw [if_neg h3]
    by_cases h4 : c.get "type" (.str "unknown") = PyVal.str "planning_thinking"
    · rw [if_pos h4]; exact ⟨_, rfl⟩
    rw [if_neg h4]
    by_cases h5 : c.get "type" (.str "unknown") = PyVal.str "strategy_preview"
    · rw [if_pos h5, hms]; exact ⟨_, rfl⟩
    rw [if_neg h5]
    by_cases h6 : c.get "type" (.str "unknown") = PyVal.str "query_preview"
    · rw [if_pos h6]; exact ⟨_, rfl⟩
    rw [if_neg h6]
    by_cases h7 : c.get "type" (.str "unknown") = PyVal.str "planning_ready"
    · rw [if_pos h7, hms]; exact ⟨_, rfl⟩
    rw [if_neg h7]
    by_cases h8 : c.get "type" (.str "unknown") = PyVal.str "search_start"
    · rw [if_pos h8, hts]; exact ⟨_, rfl⟩
    rw [if_neg h8]
    by_cases h9 : c.get "type" (.str "unknown") = PyVal.str "api_start"
    · rw [if_pos h9]; exact ⟨_, rfl⟩
    rw [if_neg h9]
    by_cases h10 : c.get "type" (.str "unknown") = PyVal.str "api_success"
    · rw [if_pos h10, hes, hms]; exact ⟨_, rfl⟩
    rw [if_neg h10]
    by_cases h11 : c.get "type" (.str "unknown") = PyVal.str "result_quality"
    · rw [if_pos h11, hcs, hqs]; exact ⟨_, rfl⟩
    rw [if_neg h11]
    by_cases h12 : c.get "type" (.str "unknown") = PyVal.str "api_error"
    · rw [if_pos h12, hms]; exact ⟨_, rfl⟩
    rw [if_neg h12]
    by_cases h13 : c.get "type" (.str "unknown") = PyVal.str "search_complete"
    · rw [if_pos h13]; exact ⟨_, rfl⟩
    rw [if_neg h13]
    by_cases h14 : c.get "type" (.str "unknown") = PyVal.str "gathering_start"
    · rw [if_pos h14]; exact ⟨_, rfl⟩
    rw [if_neg h14]
    by_cases h15 : c.get "type" (.str "unknown") = PyVal.str "success_analysis"
    · rw [if_pos h15]; exact ⟨_, rfl⟩
    rw [if_neg h15]
    by_cases h16 : c.get "type" (.str "unknown") =
      PyVal.str "performance_metrics"
    · rw [if_pos h16]; exact ⟨_, rfl⟩
    rw [if_neg h16]
    by_cases h17 : c.get "type" (.str "unknown") =
      PyVal.str "gathering_complete"
    · rw [if_pos h17, hms]; exact ⟨_, rfl⟩
    rw [if_neg h17]
    by_cases h18 : c.get "type" (.str "unknown") =
      PyVal.str "compilation_start"
    · rw [if_pos h18]; exact ⟨_, rfl⟩
    rw [if_neg h18]
    by_cases h19 : c.get "type" (.str "unknown") = PyVal.str "synthesis_start"
    · rw [if_pos h19]; exact ⟨_, rfl⟩
    rw [if_neg h19]
    by_cases h20 : c.get "type" (.str "unknown") =
      PyVal.str "synthesis_complete"
    · rw [if_pos h20, hms]; exact ⟨_, rfl⟩
    rw [if_neg h20]
    by_cases h21 : c.get "type" (.str "unknown") = PyVal.str "report_stats"
    · rw [if_pos h21]; exact ⟨_, rfl⟩
    rw [if_neg h21]
    by_cases h22 : c.get "type" (.str "unknown") =
      PyVal.str "workflow_complete"
    · rw [if_pos h22, hgs]; exact ⟨_, rfl⟩
    rw [if_neg h22]
    exact ⟨m, rfl⟩
  · intro hnot
    unfold handle_custom_stream
    dsimp only
    rw [if_neg (hnot "planning_start" (by decide)),
      if_neg (hnot "planning_config" (by decide)),
      if_neg (hnot "planning_model" (by decide)),
      if_neg (hnot "planning_thinking" (by decide)),
      if_neg (hnot "strategy_preview" (by decide)),
      if_neg (hnot "query_preview" (by decide)),
      if_neg (hnot "planning_ready" (by decide)),
      if_neg (hnot "search_start" (by decide)),
      if_neg (hnot "api_start" (by decide)),
      if_neg (hnot "api_success" (by decide)),
      if_neg (hnot "result_quality" (by decide)),
      if_neg (hnot "api_error" (by decide)),
      if_neg (hnot "search_complete" (by decide)),
      if_neg (hnot "gathering_start" (by decide)),
      if_neg (hnot "success_analysis" (by decide)),
      if_neg (hnot "performance_metrics" (by decide)),
      if_neg (hnot "gathering_complete" (by decide)),
      if_neg (hnot "synthesis_start" (by decide)),
      if_neg (hnot "synthesis_complete" (by decide)),
      if_neg (hnot "report_stats" (by decide)),
      if_neg (hnot "workflow_complete" (by decide)),
      if_neg (hnot "compilation_start" (by decide))]

/-- C10 witness: a chunk with an unrecognized tag is well-typed, handled
without error, and leaves the monitor unchanged. -/
theorem C10_handler_no_raise_witness :
    (∃ m' : Monitor, handle_custom_stream
      [("type", PyVal.str "planning_done")] initMonitor = .ok m') ∧
    handle_custom_stream [("type", PyVal.str "planning_done")] initMonitor =
      .ok initMonitor :=
  ⟨(C10_handler_no_raise [("type", PyVal.str "planning_done")] initMonitor
      (by decide)).1,
   (C10_handler_no_raise [("type", PyVal.str "planning_done")] initMonitor
      (by decide)).2 (by decide)⟩
